import Mathlib

/-!
Verification of the omni-python-playground LSP bridging layer.

This file gives a shallow embedding of the core functions of the repository:
the ty worker adapter (position conversion, URI normalization, severity
mapping, request dispatch), the non-LSP checker services, and the two
transports (WebWorkerTransport and BasedPyrightTransport).  Stateful
worker code is modelled as explicit state-passing functions whose
observable side effects (postMessage, worker termination, callback
invocation) are returned as effect lists.  Machine numbers are modelled
as Int (JS numbers on the ranges used here are exact integers).
-/

namespace Playground
/-- LSP protocol position (0-based line and character), from the worker LSPPosition interface. -/
structure LSPPosition where
  line : Int
  character : Int
deriving DecidableEq

/-- ty engine position (1-based line and column), from the ty_wasm Position type. -/
structure TyPosition where
  line : Int
  column : Int
deriving DecidableEq

/-- Convert LSP position (0-based) to ty position (1-based); embeds
lspToTyPosition from the ty worker. -/
def lspToTyPosition (pos : LSPPosition) : TyPosition :=
  { line := pos.line + 1, column := pos.character + 1 }

/-- Convert ty position (1-based) to LSP position (0-based); embeds
tyToLSPPosition from the ty worker. -/
def tyToLSPPosition (pos : TyPosition) : LSPPosition :=
  { line := pos.line - 1, character := pos.column - 1 }

/-- LSP range; the source field named end is called stop here (end is a
Lean keyword). -/
structure LSPRange where
  start : LSPPosition
  stop : LSPPosition
deriving DecidableEq

/-- ty range (start and end positions in engine coordinates). -/
structure TyRange where
  start : TyPosition
  stop : TyPosition
deriving DecidableEq

/-- Embeds tyToLSPRange from the ty worker. -/
def tyToLSPRange (range : TyRange) : LSPRange :=
  { start := tyToLSPPosition range.start, stop := tyToLSPPosition range.stop }

/-- Model of the JS String.prototype.startsWith test on the character
sequence of the strings. -/
def jsStartsWith (s pre : String) : Bool :=
  pre.data.isPrefixOf s.data

/-- URI normalization performed inside tyLocationLinkToLSPLocation: ty_wasm
returns virtual-filesystem paths; paths of the form /file:/... have the
/file: part removed and file:// prepended (uri.substring(6) keeps the
leading slash), unscoped paths get file:// prepended, and paths already
starting with file:// pass through unchanged. -/
def normalizeTyPath (uri : String) : String :=
  if jsStartsWith uri "/file:/" then
    "file://" ++ (uri.drop 6)
  else if !(jsStartsWith uri "file://") then
    "file://" ++ uri
  else
    uri

/-- A ty LocationLink as read by the worker (path and full_range fields). -/
structure TyLocationLink where
  path : String
  full_range : TyRange
deriving DecidableEq

/-- A plain LSP Location produced by the worker. -/
structure LSPLocation where
  uri : String
  range : LSPRange
deriving DecidableEq

/-- Embeds tyLocationLinkToLSPLocation from the ty worker. -/
def tyLocationLinkToLSPLocation (loc : TyLocationLink) : LSPLocation :=
  { uri := normalizeTyPath loc.path, range := tyToLSPRange loc.full_range }

/-- Pulled-diagnostics severity mapping from the textDocument/diagnostic
handler: ty Error=2, Warning=1, Info=0 map to LSP Error=1, Warning=2,
Info=3 (the expression severity === 2 ? 1 : severity === 1 ? 2 : 3). -/
def tySeverityToLSPSeverity (severity : Int) : Int :=
  if severity == 2 then 1 else if severity == 1 then 2 else 3

/-- The application diagnostic severity strings, from the App Diagnostic
type (severity: error | warning | info). -/
inductive AppSeverity where
  | error
  | warning
  | info
deriving DecidableEq

/-- Push-notification intake mapping from App.tsx onDiagnostics: protocol
severity 1 is error, 2 is warning, anything else info. -/
def lspSeverityToAppSeverity (severity : Int) : AppSeverity :=
  if severity == 1 then .error else if severity == 2 then .warning else .info

/-- Engine-severity to app-severity mapping from checkWithTy in tyService
(Severity.Error = 2, Severity.Warning = 1, Severity.Info = 0 in ty_wasm). -/
def tySeverityToAppSeverity (severity : Int) : AppSeverity :=
  if severity == 2 then .error else if severity == 1 then .warning else .info

/-- The ty_wasm Severity code of each of the three levels (Error=2,
Warning=1, Info=0, as documented in the severity comment of the ty worker);
identifies app severity names with engine severity levels. -/
def appSeverityToTySeverity : AppSeverity → Int
  | .error => 2
  | .warning => 1
  | .info => 0

/-- The application DiagnosticRange (1-based line and column). -/
structure DiagnosticRange where
  line : Int
  column : Int
deriving DecidableEq

/-- The application Diagnostic shape from App.tsx; the source field named
end is called stop here. -/
structure Diagnostic where
  start : Option DiagnosticRange
  stop : Option DiagnosticRange
  message : String
  severity : AppSeverity
  source : String
deriving DecidableEq

/-- Embeds checkWithPyright from pyrightService: the stub returns one
synthetic informational diagnostic. -/
def checkWithPyright (code : String) (pythonVersion : String) : List Diagnostic :=
  [{ start := some { line := 1, column := 1 },
     stop := some { line := 1, column := 1 },
     message := "Pyright integration not yet implemented (will use server-side approach)",
     severity := .info,
     source := "Pyright" }]

/-- Embeds checkWithPyrefly from pyreflyService: the placeholder returns an
empty list. -/
def checkWithPyrefly (code : String) (pythonVersion : String) : List Diagnostic :=
  []

/-- Embeds checkWithBasedPyright from basedpyrightService: the placeholder
returns an empty list. -/
def checkWithBasedPyright (code : String) (pythonVersion : String) : List Diagnostic :=
  []

/-- A JSON-RPC request id (number or string). -/
inductive ReqId where
  | num (n : Int)
  | str (s : String)
deriving DecidableEq

/-- The request parameter fields read by the worker handlers, for
well-formed requests: textDocument.uri, textDocument.text (didOpen),
contentChanges texts (didChange), position, and
initializationOptions.pythonVersion (initialize). -/
structure LSPParams where
  uri : String
  text : String
  contentChanges : List String
  position : LSPPosition
  pythonVersion : Option String
deriving DecidableEq

/-- An inbound LSP request as read by handleRequest. -/
structure LSPRequest where
  id : Option ReqId
  method : String
  params : LSPParams
deriving DecidableEq

/-- A ty diagnostic as observed by the worker: toRange(workspace) may yield
nothing, severity() is the engine severity code, message() the text. -/
structure TyDiagnostic where
  toRange : Option TyRange
  severity : Int
  message : String
deriving DecidableEq

/-- A ty hover result (markdown text and range). -/
structure TyHover where
  markdown : String
  range : TyRange
deriving DecidableEq

/-- A ty text edit. -/
structure TyTextEdit where
  range : TyRange
  new_text : String
deriving DecidableEq

/-- A ty completion item as read by the completion handler. -/
structure TyCompletion where
  name : String
  kind : Option Int
  detail : Option String
  documentation : Option String
  insert_text : Option String
  additional_text_edits : Option (List TyTextEdit)
deriving DecidableEq

/-- A ty document highlight. -/
structure TyDocumentHighlight where
  range : TyRange
  kind : Option Int
deriving DecidableEq

/-- A ty signature parameter. -/
structure TyParameterInformation where
  label : String
  documentation : Option String
deriving DecidableEq

/-- A ty signature. -/
structure TySignatureInformation where
  label : String
  documentation : Option String
  parameters : List TyParameterInformation
  active_parameter : Option Int
deriving DecidableEq

/-- A ty signature-help result. -/
structure TySignatureHelp where
  signatures : List TySignatureInformation
  active_signature : Option Int
deriving DecidableEq

/-- Abstract oracle for the ty_wasm native engine the worker drives.  File
handles are Nat.  Every operation returns Except: an error is a raised JS
exception carrying its stringified form, to be caught by the try/catch
in handleRequest.  initOp models the WASM init() call and newWorkspace the
Workspace construction for a python version. -/
structure Engine where
  initOp : Except String Unit
  newWorkspace : String → Except String Unit
  openFile : String → String → Except String Nat
  updateFile : Nat → String → Except String Unit
  closeFile : Nat → Except String Unit
  checkFile : Nat → Except String (List TyDiagnostic)
  hover : Nat → TyPosition → Except String (Option TyHover)
  completions : Nat → TyPosition → Except String (List TyCompletion)
  gotoDefinition : Nat → TyPosition → Except String (List TyLocationLink)
  gotoReferences : Nat → TyPosition → Except String (List TyLocationLink)
  gotoTypeDefinition : Nat → TyPosition → Except String (List TyLocationLink)
  gotoDeclaration : Nat → TyPosition → Except String (List TyLocationLink)
  documentHighlights : Nat → TyPosition → Except String (List TyDocumentHighlight)
  signatureHelp : Nat → TyPosition → Except String (Option TySignatureHelp)
  format : Nat → Except String (Option String)
  sourceText : Nat → Except String String

/-- The worker module-level state: the nullable workspace (true when
initialized), the fileHandles map (uri to handle, in insertion order like a
JS Map), the python version, and whether exit has closed the worker. -/
structure AdapterState where
  workspaceInited : Bool
  fileHandles : List (String × Nat)
  pythonVersion : String
  terminated : Bool
deriving DecidableEq

/-- JS Map.get. -/
def mapGet (m : List (String × Nat)) (k : String) : Option Nat :=
  match m with
  | [] => none
  | (k', v) :: rest => if k' = k then some v else mapGet rest k

/-- JS Map.set: replace in place, or append preserving insertion order. -/
def mapSet (m : List (String × Nat)) (k : String) (v : Nat) : List (String × Nat) :=
  match m with
  | [] => [(k, v)]
  | (k', v') :: rest => if k' = k then (k, v) :: rest else (k', v') :: mapSet rest k v

/-- JS Map.delete. -/
def mapDelete (m : List (String × Nat)) (k : String) : List (String × Nat) :=
  m.filter fun kv => kv.1 ≠ k

/-- An LSP diagnostic as sent in the textDocument/diagnostic response. -/
structure LSPDiagnostic where
  range : LSPRange
  severity : Int
  message : String
  source : String
deriving DecidableEq

/-- An LSP text edit as sent by the worker. -/
structure LSPTextEdit where
  range : LSPRange
  newText : String
deriving DecidableEq

/-- An LSP completion item as sent by the worker. -/
structure LSPCompletionItem where
  label : String
  kind : Int
  detail : Option String
  documentation : Option String
  insertText : String
  additionalTextEdits : Option (List LSPTextEdit)
deriving DecidableEq

/-- An LSP document highlight as sent by the worker. -/
structure LSPHighlight where
  range : LSPRange
  kind : Option Int
deriving DecidableEq

/-- An LSP signature parameter as sent by the worker. -/
structure LSPParameterInformation where
  label : String
  documentation : Option String
deriving DecidableEq

/-- An LSP signature as sent by the worker. -/
structure LSPSignatureInformation where
  label : String
  documentation : Option String
  parameters : List LSPParameterInformation
  activeParameter : Option Int
deriving DecidableEq

/-- An LSP signature-help result as sent by the worker. -/
structure LSPSignatureHelp where
  signatures : List LSPSignatureInformation
  activeSignature : Int
deriving DecidableEq

/-- The result payloads the worker sends; capabilities stands for the fixed
capability object of the initialize response. -/
inductive LSPResult where
  | nullResult
  | capabilities
  | diagnosticReport (items : List LSPDiagnostic)
  | hoverResult (contents : String) (range : LSPRange)
  | completionList (items : List LSPCompletionItem)
  | locations (locs : List LSPLocation)
  | highlights (items : List LSPHighlight)
  | signatureHelpResult (help : LSPSignatureHelp)
  | textEdits (edits : List LSPTextEdit)
deriving DecidableEq

/-- Messages the worker posts to the main thread: sendResponse, sendError,
and sendNotification (window/logMessage with a type and message). -/
inductive OutMessage where
  | response (id : Option ReqId) (result : LSPResult)
  | errorResponse (id : Option ReqId) (code : Int) (message : String)
  | notification (method : String) (msgType : Int) (message : String)
deriving DecidableEq

/-- Conversion of one engine diagnostic performed in the
textDocument/diagnostic handler, including the zero-range fallback when
toRange yields nothing and the inline severity mapping. -/
def tyDiagnosticToLSP (diag : TyDiagnostic) : LSPDiagnostic :=
  { range :=
      match diag.toRange with
      | some r => tyToLSPRange r
      | none =>
        { start := { line := 0, character := 0 }, stop := { line := 0, character := 0 } },
    severity := tySeverityToLSPSeverity diag.severity,
    message := diag.message,
    source := "ty" }

/-- Conversion of one completion item in the textDocument/completion
handler; insert_text is subject to JS truthiness (empty string falls back
to the name), kind defaults to 1. -/
def tyCompletionToLSP (comp : TyCompletion) : LSPCompletionItem :=
  { label := comp.name,
    kind := comp.kind.getD 1,
    detail := comp.detail,
    documentation := comp.documentation,
    insertText :=
      match comp.insert_text with
      | some s => if s = "" then comp.name else s
      | none => comp.name,
    additionalTextEdits := comp.additional_text_edits.map (List.map fun edit =>
      { range := tyToLSPRange edit.range, newText := edit.new_text }) }

/-- Conversion of the signature-help result; active_signature is subject to
JS truthiness so an absent or zero value becomes 0. -/
def tySignatureHelpToLSP (sigHelp : TySignatureHelp) : LSPSignatureHelp :=
  { signatures := sigHelp.signatures.map fun sig =>
      { label := sig.label,
        documentation := sig.documentation,
        parameters := sig.parameters.map fun param =>
          { label := param.label, documentation := param.documentation },
        activeParameter := sig.active_parameter },
    activeSignature := sigHelp.active_signature.getD 0 }

/-- The try-block of the worker handleRequest: dispatch on the method
name, with the missing-state early returns of each handler.  Except.error
carries the state at the throw point together with the stringified engine
failure, so the surrounding catch can be modelled faithfully. -/
def tryHandle (eng : Engine) (st : AdapterState) (req : LSPRequest) :
    Except (AdapterState × String) (AdapterState × List OutMessage) :=
  match req.method with
  | "initialize" =>
    match eng.initOp with
    | .error e => .error (st, e)
    | .ok _ =>
      let pv := req.params.pythonVersion.getD "3.12"
      let st1 := { st with pythonVersion := pv }
      match eng.newWorkspace pv with
      | .error e => .error (st1, e)
      | .ok _ =>
        .ok ({ st1 with workspaceInited := true }, [.response req.id .capabilities])
  | "initialized" =>
    .ok (st, [.notification "window/logMessage" 3 "ty language server initialized"])
  | "textDocument/didOpen" =>
    if st.workspaceInited then
      match eng.openFile req.params.uri req.params.text with
      | .error e => .error (st, e)
      | .ok handle =>
        .ok ({ st with fileHandles := mapSet st.fileHandles req.params.uri handle }, [])
    else
      .ok (st, [])
  | "textDocument/didChange" =>
    match mapGet st.fileHandles req.params.uri with
    | some handle =>
      match req.params.contentChanges with
      | [] => .ok (st, [])
      | newText :: _ =>
        if st.workspaceInited then
          match eng.updateFile handle newText with
          | .error e => .error (st, e)
          | .ok _ => .ok (st, [])
        else
          .ok (st, [])
    | none => .ok (st, [])
  | "textDocument/didClose" =>
    match mapGet st.fileHandles req.params.uri with
    | some handle =>
      if st.workspaceInited then
        match eng.closeFile handle with
        | .error e => .error (st, e)
        | .ok _ =>
          .ok ({ st with fileHandles := mapDelete st.fileHandles req.params.uri }, [])
      else
        .ok (st, [])
    | none => .ok (st, [])
  | "textDocument/diagnostic" =>
    match mapGet st.fileHandles req.params.uri with
    | some handle =>
      if st.workspaceInited then
        match eng.checkFile handle with
        | .error e => .error (st, e)
        | .ok diagnostics =>
          .ok (st, [.response req.id (.diagnosticReport (diagnostics.map tyDiagnosticToLSP))])
      else
        .ok (st, [.response req.id (.diagnosticReport [])])
    | none => .ok (st, [.response req.id (.diagnosticReport [])])
  | "textDocument/hover" =>
    match mapGet st.fileHandles req.params.uri with
    | some handle =>
      if st.workspaceInited then
        match eng.hover handle (lspToTyPosition req.params.position) with
        | .error e => .error (st, e)
        | .ok (some h) =>
          .ok (st, [.response req.id (.hoverResult h.markdown (tyToLSPRange h.range))])
        | .ok none => .ok (st, [.response req.id .nullResult])
      else
        .ok (st, [.response req.id .nullResult])
    | none => .ok (st, [.response req.id .nullResult])
  | "textDocument/completion" =>
    match mapGet st.fileHandles req.params.uri with
    | some handle =>
      if st.workspaceInited then
        match eng.completions handle (lspToTyPosition req.params.position) with
        | .error e => .error (st, e)
        | .ok comps =>
          .ok (st, [.response req.id (.completionList (comps.map tyCompletionToLSP))])
      else
        .ok (st, [.response req.id (.completionList [])])
    | none => .ok (st, [.response req.id (.completionList [])])
  | "textDocument/definition" =>
    match mapGet st.fileHandles req.params.uri with
    | some handle =>
      if st.workspaceInited then
        match eng.gotoDefinition handle (lspToTyPosition req.params.position) with
        | .error e => .error (st, e)
        | .ok locs =>
          .ok (st, [.response req.id (.locations (locs.map tyLocationLinkToLSPLocation))])
      else
        .ok (st, [.response req.id (.locations [])])
    | none => .ok (st, [.response req.id (.locations [])])
  | "textDocument/references" =>
    match mapGet st.fileHandles req.params.uri with
    | some handle =>
      if st.workspaceInited then
        match eng.gotoReferences handle (lspToTyPosition req.params.position) with
        | .error e => .error (st, e)
        | .ok locs =>
          .ok (st, [.response req.id (.locations (locs.map tyLocationLinkToLSPLocation))])
      else
        .ok (st, [.response req.id (.locations [])])
    | none => .ok (st, [.response req.id (.locations [])])
  | "textDocument/typeDefinition" =>
    match mapGet st.fileHandles req.params.uri with
    | some handle =>
      if st.workspaceInited then
        match eng.gotoTypeDefinition handle (lspToTyPosition req.params.position) with
        | .error e => .error (st, e)
        | .ok locs =>
          .ok (st, [.response req.id (.locations (locs.map tyLocationLinkToLSPLocation))])
      else
        .ok (st, [.response req.id (.locations [])])
    | none => .ok (st, [.response req.id (.locations [])])
  | "textDocument/declaration" =>
    match mapGet st.fileHandles req.params.uri with
    | some handle =>
      if st.workspaceInited then
        match eng.gotoDeclaration handle (lspToTyPosition req.params.position) with
        | .error e => .error (st, e)
        | .ok locs =>
          .ok (st, [.response req.id (.locations (locs.map tyLocationLinkToLSPLocation))])
      else
        .ok (st, [.response req.id (.locations [])])
    | none => .ok (st, [.response req.id (.locations [])])
  | "textDocument/documentHighlight" =>
    match mapGet st.fileHandles req.params.uri with
    | some handle =>
      if st.workspaceInited then
        match eng.documentHighlights handle (lspToTyPosition req.params.position) with
        | .error e => .error (st, e)
        | .ok hls =>
          .ok (st, [.response req.id (.highlights (hls.map fun hl =>
            { range := tyToLSPRange hl.range, kind := hl.kind }))])
      else
        .ok (st, [.response req.id (.highlights [])])
    | none => .ok (st, [.response req.id (.highlights [])])
  | "textDocument/signatureHelp" =>
    match mapGet st.fileHandles req.params.uri with
    | some handle =>
      if st.workspaceInited then
        match eng.signatureHelp handle (lspToTyPosition req.params.position) with
        | .error e => .error (st, e)
        | .ok (some sigHelp) =>
          .ok (st, [.response req.id (.signatureHelpResult (tySignatureHelpToLSP sigHelp))])
        | .ok none => .ok (st, [.response req.id .nullResult])
      else
        .ok (st, [.response req.id .nullResult])
    | none => .ok (st, [.response req.id .nullResult])
  | "textDocument/formatting" =>
    match mapGet st.fileHandles req.params.uri with
    | some handle =>
      if st.workspaceInited then
        match eng.format handle with
        | .error e => .error (st, e)
        | .ok (some formatted) =>
          if formatted = "" then
            .ok (st, [.response req.id (.textEdits [])])
          else
            match eng.sourceText handle with
            | .error e => .error (st, e)
            | .ok currentText =>
              let lines := currentText.splitOn "\n"
              let lastLine := lines.length - 1
              let lastChar := (lines.getD lastLine "").length
              .ok (st, [.response req.id (.textEdits [{
                range := { start := { line := 0, character := 0 },
                           stop := { line := Int.ofNat lastLine,
                                     character := Int.ofNat lastChar } },
                newText := formatted }])])
        | .ok none => .ok (st, [.response req.id (.textEdits [])])
      else
        .ok (st, [.response req.id (.textEdits [])])
    | none => .ok (st, [.response req.id (.textEdits [])])
  | "shutdown" => .ok (st, [.response req.id .nullResult])
  | "exit" => .ok ({ st with terminated := true }, [])
  | _ => .ok (st, [.errorResponse req.id (-32601) ("Method not found: " ++ req.method)])

/-- The worker handleRequest with its surrounding try/catch: the try
block runs, and any raised engine exception is caught and answered with a
-32603 internal-error response carrying the stringified failure.  The
function is total, so no exception ever escapes the adapter. -/
def handleRequest (eng : Engine) (st : AdapterState) (req : LSPRequest) :
    AdapterState × List OutMessage :=
  match tryHandle eng st req with
  | .ok result => result
  | .error (st2, e) =>
    (st2, [.errorResponse req.id (-32603) ("Internal error: " ++ e)])

/-- The method names present in the dispatch table of handleRequest. -/
def supportedMethods : List String :=
  ["initialize", "initialized", "textDocument/didOpen", "textDocument/didChange",
   "textDocument/didClose", "textDocument/diagnostic", "textDocument/hover",
   "textDocument/completion", "textDocument/definition", "textDocument/references",
   "textDocument/typeDefinition", "textDocument/declaration",
   "textDocument/documentHighlight", "textDocument/signatureHelp",
   "textDocument/formatting", "shutdown", "exit"]

/-- The methods whose handlers require an initialized workspace and a file
handle for the document URI of the request. -/
def stateRequiringMethods : List String :=
  ["textDocument/diagnostic", "textDocument/hover", "textDocument/completion",
   "textDocument/definition", "textDocument/references", "textDocument/typeDefinition",
   "textDocument/declaration", "textDocument/documentHighlight",
   "textDocument/signatureHelp", "textDocument/formatting"]

/-- The empty or null result each state-requiring handler answers with when
the workspace is uninitialized or no handle exists for the document. -/
def emptyResultFor (method : String) : LSPResult :=
  if method = "textDocument/diagnostic" then .diagnosticReport []
  else if method = "textDocument/hover" then .nullResult
  else if method = "textDocument/completion" then .completionList []
  else if method = "textDocument/documentHighlight" then .highlights []
  else if method = "textDocument/signatureHelp" then .nullResult
  else if method = "textDocument/formatting" then .textEdits []
  else .locations []

/-- Engine oracle where every operation succeeds with an empty result. -/
def okEngine : Engine where
  initOp := .ok ()
  newWorkspace := fun _ => .ok ()
  openFile := fun _ _ => .ok 0
  updateFile := fun _ _ => .ok ()
  closeFile := fun _ => .ok ()
  checkFile := fun _ => .ok []
  hover := fun _ _ => .ok none
  completions := fun _ _ => .ok []
  gotoDefinition := fun _ _ => .ok []
  gotoReferences := fun _ _ => .ok []
  gotoTypeDefinition := fun _ _ => .ok []
  gotoDeclaration := fun _ _ => .ok []
  documentHighlights := fun _ _ => .ok []
  signatureHelp := fun _ _ => .ok none
  format := fun _ => .ok none
  sourceText := fun _ => .ok ""

/-- Engine equal to okEngine except that checkFile raises. -/
def failingCheckEngine : Engine :=
  { okEngine with checkFile := fun _ => .error "boom" }

/-- A diagnostic whose engine range is absent. -/
def noRangeDiag : TyDiagnostic :=
  { toRange := none, severity := 2, message := "m" }

/-- Engine equal to okEngine except that checkFile reports one diagnostic
whose toRange yields nothing. -/
def noRangeEngine : Engine :=
  { okEngine with checkFile := fun _ => Except.ok [noRangeDiag] }

/-- The worker initial module-level state. -/
def initialState : AdapterState :=
  { workspaceInited := false, fileHandles := [], pythonVersion := "3.12",
    terminated := false }

/-- Adapter state with an initialized workspace and one open file. -/
def readyState : AdapterState :=
  { workspaceInited := true, fileHandles := [("file:///main.py", 0)],
    pythonVersion := "3.12", terminated := false }

/-- Parameter record pointing at the open document. -/
def mainParams : LSPParams :=
  { uri := "file:///main.py", text := "", contentChanges := [],
    position := { line := 0, character := 0 }, pythonVersion := none }

/-- A diagnostics-pull request for the open document. -/
def diagnosticRequest : LSPRequest :=
  { id := some (.num 1), method := "textDocument/diagnostic", params := mainParams }

/-- A hover request for the open document. -/
def hoverRequest : LSPRequest :=
  { id := some (.num 2), method := "textDocument/hover", params := mainParams }

/-- A request with a method name outside the dispatch table. -/
def unknownRequest : LSPRequest :=
  { id := some (.num 3), method := "foo/bar", params := mainParams }

/-- Observable effects of the WebWorkerTransport: worker termination,
posting a message, detaching the worker event listeners, and invoking the
configured onClose callback. -/
inductive WWEffect where
  | terminateWorker
  | postToWorker (message : String)
  | removeMessageListener
  | removeErrorListener
  | invokeOnCloseCallback
deriving DecidableEq

/-- WebWorkerTransport state: the private closed flag and the subscribed
handler set (handlers identified by Nat). -/
structure WWState where
  closed : Bool
  handlers : List Nat
deriving DecidableEq

/-- WebWorkerTransport.close: a repeated call returns immediately on the
closed guard; the first call runs handleClose (set the flag, detach the
message and error listeners, clear the handler set) and terminates the
worker.  close itself never invokes the onClose callback: in the source
only the messageerror listener does. -/
def wwClose (s : WWState) : WWState × List WWEffect :=
  if s.closed then (s, [])
  else ({ closed := true, handlers := [] },
        [.removeMessageListener, .removeErrorListener, .terminateWorker])

/-- WebWorkerTransport.send: throws when the transport is closed, else the
(parsed or raw) message is posted to the worker. -/
def wwSend (s : WWState) (message : String) : Except String WWEffect :=
  if s.closed then .error "Transport is closed"
  else .ok (.postToWorker message)

/-- WebWorkerTransport.subscribe (JS Set.add semantics). -/
def wwSubscribe (s : WWState) (handler : Nat) : WWState :=
  if handler ∈ s.handlers then s else { s with handlers := s.handlers ++ [handler] }

/-- WebWorkerTransport.unsubscribe (JS Set.delete semantics). -/
def wwUnsubscribe (s : WWState) (handler : Nat) : WWState :=
  { s with handlers := s.handlers.filter fun h => h ≠ handler }

/-- Observable effects of the BasedPyrightTransport: terminating the
foreground or a background worker, invoking the onClose callback,
constructing a satellite worker, posting the boot message to a satellite
(with the postMessage transfer list), delivering a JSON-RPC payload to a
subscribed handler, and posting to the foreground worker. -/
inductive BPTEffect where
  | terminateForeground (workerId : Nat)
  | terminateBackground (workerId : Nat)
  | invokeOnCloseCallback
  | spawnWorker (workerId : Nat) (name : String)
  | postBoot (workerId : Nat) (initialData : Nat) (port : Nat) (transferList : List Nat)
  | deliverToHandler (handlerId : Nat) (message : String)
  | postToForeground (message : String)
deriving DecidableEq

/-- BasedPyrightTransport state.  Workers are identified by Nat ids drawn
from nextWorkerId, modelling JS object identity of Worker instances;
channel endpoints and initialization payloads are opaque Nat ids. -/
structure BPTState where
  foregroundWorker : Option Nat
  backgroundWorkers : List Nat
  handlers : List Nat
  closed : Bool
  nextWorkerId : Nat
deriving DecidableEq

/-- BasedPyrightTransport.close: a repeated call returns immediately on the
closed guard; the first call sets the flag, terminates the foreground
worker when present, terminates every background worker, empties the
worker lists and handler set, and invokes the onClose callback. -/
def bptClose (t : BPTState) : BPTState × List BPTEffect :=
  if t.closed then (t, [])
  else
    ({ t with closed := true, foregroundWorker := none,
              backgroundWorkers := [], handlers := [] },
     (match t.foregroundWorker with
      | some w => [.terminateForeground w]
      | none => []) ++
       t.backgroundWorkers.map .terminateBackground ++ [.invokeOnCloseCallback])

/-- BasedPyrightTransport.send: throws when the transport is closed, then
when no foreground worker exists; the initialize-rewrite of the message
body is abstracted into a single post effect (no claim depends on the
rewritten payload). -/
def bptSend (t : BPTState) (message : String) : Except String BPTEffect :=
  if t.closed then .error "Transport is closed"
  else
    match t.foregroundWorker with
    | none => .error "Worker not initialized"
    | some _ => .ok (.postToForeground message)

/-- The messages the foreground worker can deliver to handleMessage: a
browser/newWorker spawn request carrying an initialization payload and a
channel endpoint, a JSON-RPC protocol message, or anything else (dropped). -/
inductive BPTInMessage where
  | newWorker (initialData : Nat) (port : Nat)
  | jsonrpc (payload : String)
  | other
deriving DecidableEq

/-- BasedPyrightTransport.createBackgroundWorker: construct a satellite
worker (named after the new satellite count), append it to the owned list,
and post it the browser/boot background message carrying the payload
and endpoint of the spawn request, with the endpoint in the postMessage
transfer list. -/
def createBackgroundWorker (t : BPTState) (initialData : Nat) (port : Nat) :
    BPTState × List BPTEffect :=
  ({ t with backgroundWorkers := t.backgroundWorkers ++ [t.nextWorkerId],
            nextWorkerId := t.nextWorkerId + 1 },
   [.spawnWorker t.nextWorkerId
      ("BasedPyright-background-" ++ toString (t.backgroundWorkers.length + 1)),
    .postBoot t.nextWorkerId initialData port [port]])

/-- BasedPyrightTransport.handleMessage: spawn requests go to
createBackgroundWorker, JSON-RPC messages are delivered to every
subscribed handler, anything else is dropped. -/
def handleMessage (t : BPTState) (msg : BPTInMessage) : BPTState × List BPTEffect :=
  match msg with
  | .newWorker initialData port => createBackgroundWorker t initialData port
  | .jsonrpc payload => (t, t.handlers.map fun h => .deliverToHandler h payload)
  | .other => (t, [])

/-- Sequential processing of a stream of inbound messages by handleMessage,
accumulating the emitted effects in order. -/
def processMessages (t : BPTState) (msgs : List BPTInMessage) :
    BPTState × List BPTEffect :=
  match msgs with
  | [] => (t, [])
  | m :: rest =>
    ((processMessages (handleMessage t m).1 rest).1,
     (handleMessage t m).2 ++ (processMessages (handleMessage t m).1 rest).2)

/-- The payload and endpoint of a spawn request, if the message is one. -/
def spawnData : BPTInMessage → Option (Nat × Nat)
  | .newWorker d p => some (d, p)
  | _ => none

/-- The boot posts among a list of effects: target worker, payload,
endpoint, and transfer list. -/
def bootPosts (effs : List BPTEffect) : List (Nat × Nat × Nat × List Nat) :=
  effs.filterMap fun e =>
    match e with
    | .postBoot w d p tl => some (w, d, p, tl)
    | _ => none

/-- The satellite workers constructed among a list of effects. -/
def spawnedWorkers (effs : List BPTEffect) : List Nat :=
  effs.filterMap fun e =>
    match e with
    | .spawnWorker w _ => some w
    | _ => none

/-- The boot posts the fan-out claim requires: the k-th spawn request (with
payload d and endpoint p) yields one boot post to the fresh worker
nextId+k carrying (d, p) with the endpoint as the sole transferred item. -/
def expectedBoots (nextId : Nat) : List (Nat × Nat) → List (Nat × Nat × Nat × List Nat)
  | [] => []
  | (d, p) :: rest => (nextId, d, p, [p]) :: expectedBoots (nextId + 1) rest

/-- A live (never closed) WebWorkerTransport state with one subscriber. -/
def liveWWState : WWState := { closed := false, handlers := [7] }

/-- A live BasedPyrightTransport state owning a foreground worker, two
satellites and one subscriber. -/
def liveBPTState : BPTState :=
  { foregroundWorker := some 0, backgroundWorkers := [1, 2], handlers := [5],
    closed := false, nextWorkerId := 3 }

lemma string_eq_of_data (p q : String) (h : p.data = q.data) : p = q := by
  cases p
  cases q
  exact congrArg String.mk h

lemma isPrefixOf_append_self (l r : List Char) : l.isPrefixOf (l ++ r) = true := by
  induction l with
  | nil => simp
  | cons a as ih => simp [List.isPrefixOf_cons₂, ih]

lemma jsStartsWith_append (pre rest : String) : jsStartsWith (pre ++ rest) pre = true := by
  simp [jsStartsWith, String.data_append, isPrefixOf_append_self]

lemma isPrefixOf_false_of_head_ne {a b : Char} (hab : a ≠ b) (as bs l : List Char)
    (h : (b :: bs).isPrefixOf l = true) : (a :: as).isPrefixOf l = false := by
  cases l with
  | nil => simp [List.isPrefixOf] at h
  | cons c cs =>
    simp only [List.isPrefixOf_cons₂, Bool.and_eq_true, beq_iff_eq] at h
    have hac : (a == c) = false := by
      simp only [beq_eq_false_iff_ne, ne_eq]
      intro hac
      exact hab (hac.trans h.1.symm)
    simp [List.isPrefixOf_cons₂, hac]

lemma not_marker_of_scheme (p : String) (h : jsStartsWith p "file://" = true) :
    jsStartsWith p "/file:/" = false := by
  have h' : List.isPrefixOf ('f' :: "ile://".data) p.data = true := h
  exact isPrefixOf_false_of_head_ne (by decide) "file:/".data "ile://".data p.data h'

lemma count_invoke_map_terminate (l : List Nat) :
    (l.map BPTEffect.terminateBackground).count BPTEffect.invokeOnCloseCallback = 0 := by
  rw [List.count_eq_zero]
  simp

lemma bootPosts_deliver (hs : List Nat) (payload : String) :
    bootPosts (hs.map fun h => BPTEffect.deliverToHandler h payload) = [] := by
  induction hs with
  | nil => rfl
  | cons h hs ih => simpa [bootPosts, List.filterMap_cons] using ih

lemma spawnedWorkers_deliver (hs : List Nat) (payload : String) :
    spawnedWorkers (hs.map fun h => BPTEffect.deliverToHandler h payload) = [] := by
  induction hs with
  | nil => rfl
  | cons h hs ih => simpa [spawnedWorkers, List.filterMap_cons] using ih

lemma expectedBoots_fst_ge (l : List (Nat × Nat)) :
    ∀ n, ∀ w ∈ (expectedBoots n l).map (fun b => b.1), n ≤ w := by
  induction l with
  | nil => simp [expectedBoots]
  | cons dp rest ih =>
    intro n w hw
    obtain ⟨d, p⟩ := dp
    simp only [expectedBoots, List.map_cons, List.mem_cons] at hw
    rcases hw with rfl | hw
    · exact le_refl w
    · exact le_trans (Nat.le_succ n) (ih (n + 1) w hw)

lemma expectedBoots_fst_nodup (l : List (Nat × Nat)) :
    ∀ n, ((expectedBoots n l).map (fun b => b.1)).Nodup := by
  induction l with
  | nil => intro n; simp [expectedBoots]
  | cons dp rest ih =>
    intro n
    obtain ⟨d, p⟩ := dp
    simp only [expectedBoots, List.map_cons, List.nodup_cons]
    refine ⟨fun hmem => ?_, ih (n + 1)⟩
    have := expectedBoots_fst_ge rest (n + 1) n hmem
    omega

lemma expectedBoots_length (l : List (Nat × Nat)) :
    ∀ n, (expectedBoots n l).length = l.length := by
  induction l with
  | nil => intro n; rfl
  | cons dp rest ih =>
    intro n
    obtain ⟨d, p⟩ := dp
    simp [expectedBoots, ih]

lemma bootPosts_append (l1 l2 : List BPTEffect) :
    bootPosts (l1 ++ l2) = bootPosts l1 ++ bootPosts l2 := by
  simp [bootPosts, List.filterMap_append]

lemma spawnedWorkers_append (l1 l2 : List BPTEffect) :
    spawnedWorkers (l1 ++ l2) = spawnedWorkers l1 ++ spawnedWorkers l2 := by
  simp [spawnedWorkers, List.filterMap_append]

lemma bootPosts_pm (msgs : List BPTInMessage) : ∀ t : BPTState,
    bootPosts (processMessages t msgs).2 =
      expectedBoots t.nextWorkerId (msgs.filterMap spawnData) := by
  induction msgs with
  | nil => intro t; rfl
  | cons m rest ih =>
    intro t
    cases m with
    | newWorker d p =>
      simp only [processMessages, handleMessage, createBackgroundWorker,
        bootPosts_append, List.filterMap_cons, spawnData]
      rw [ih]
      rfl
    | jsonrpc payload =>
      simp only [processMessages, handleMessage, bootPosts_append,
        List.filterMap_cons, spawnData, bootPosts_deliver]
      rw [ih]
      rfl
    | other =>
      simp only [processMessages, handleMessage, bootPosts_append,
        List.filterMap_cons, spawnData]
      rw [ih]
      rfl

lemma spawnedWorkers_pm (msgs : List BPTInMessage) : ∀ t : BPTState,
    spawnedWorkers (processMessages t msgs).2 =
      (expectedBoots t.nextWorkerId (msgs.filterMap spawnData)).map (fun b => b.1) := by
  induction msgs with
  | nil => intro t; rfl
  | cons m rest ih =>
    intro t
    cases m with
    | newWorker d p =>
      simp only [processMessages, handleMessage, createBackgroundWorker,
        spawnedWorkers_append, List.filterMap_cons, spawnData]
      rw [ih]
      rfl
    | jsonrpc payload =>
      simp only [processMessages, handleMessage, spawnedWorkers_append,
        List.filterMap_cons, spawnData, spawnedWorkers_deliver]
      rw [ih]
      rfl
    | other =>
      simp only [processMessages, handleMessage, spawnedWorkers_append,
        List.filterMap_cons, spawnData]
      rw [ih]
      rfl

lemma backgroundWorkers_pm (msgs : List BPTInMessage) : ∀ t : BPTState,
    (processMessages t msgs).1.backgroundWorkers =
      t.backgroundWorkers ++
        (expectedBoots t.nextWorkerId (msgs.filterMap spawnData)).map (fun b => b.1) := by
  induction msgs with
  | nil => intro t; simp [processMessages, expectedBoots]
  | cons m rest ih =>
    intro t
    cases m with
    | newWorker d p =>
      simp only [processMessages, handleMessage, createBackgroundWorker,
        List.filterMap_cons, spawnData]
      rw [ih]
      simp [expectedBoots]
    | jsonrpc payload =>
      simp only [processMessages, handleMessage, List.filterMap_cons, spawnData]
      rw [ih]
    | other =>
      simp only [processMessages, handleMessage, List.filterMap_cons, spawnData]
      rw [ih]

/-- C1: converting a protocol-standard position (line ≥ 0, character ≥ 0) to
the engine-native encoding with lspToTyPosition and back with
tyToLSPPosition is the identity. -/
theorem position_roundtrip (pos : LSPPosition)
    (hline : 0 ≤ pos.line) (hchar : 0 ≤ pos.character) :
    tyToLSPPosition (lspToTyPosition pos) = pos := by
  simp [tyToLSPPosition, lspToTyPosition]

theorem position_roundtrip_witness :
    (0 : Int) ≤ 4 ∧ (0 : Int) ≤ 9 ∧
      tyToLSPPosition (lspToTyPosition { line := 4, character := 9 }) =
        { line := 4, character := 9 } :=
  ⟨by decide, by decide,
    position_roundtrip { line := 4, character := 9 } (by decide) (by decide)⟩

/-- C2: the engine-path-to-URI normalization strips the /file:/ marker and
produces file:// plus the remaining slash-led path, prepends file:// to
unscoped paths, and leaves already scheme-scoped paths unchanged; in
particular
/file:/workspace/main.py and /workspace/main.py both map to
file:///workspace/main.py and file:///x is unchanged. -/
theorem uri_rewrite_correct (rest p : String) :
    (normalizeTyPath ("/file:/" ++ rest) = "file:///" ++ rest) ∧
    (jsStartsWith p "/file:/" = false → jsStartsWith p "file://" = false →
      normalizeTyPath p = "file://" ++ p) ∧
    (jsStartsWith p "file://" = true → normalizeTyPath p = p) ∧
    normalizeTyPath "/file:/workspace/main.py" = "file:///workspace/main.py" ∧
    normalizeTyPath "/workspace/main.py" = "file:///workspace/main.py" ∧
    normalizeTyPath "file:///x" = "file:///x" := by
  refine ⟨?_, ?_, ?_, ?_, ?_, ?_⟩
  · rw [normalizeTyPath, if_pos (jsStartsWith_append "/file:/" rest)]
    apply string_eq_of_data
    simp only [String.data_append, String.data_drop]
    rw [List.drop_append_of_le_length (by decide)]
    have hdrop : "/file:/".data.drop 6 = ['/'] := by decide
    rw [hdrop, ← List.append_assoc]
    rfl
  · intro h1 h2
    simp [normalizeTyPath, h1, h2]
  · intro h
    simp [normalizeTyPath, not_marker_of_scheme p h, h]
  · decide
  · decide
  · decide

theorem uri_rewrite_correct_witness :
    jsStartsWith "/opt/x.py" "/file:/" = false ∧
    jsStartsWith "/opt/x.py" "file://" = false ∧
    jsStartsWith "file:///y" "file://" = true ∧
    (normalizeTyPath ("/file:/" ++ "a.py") = "file:///" ++ "a.py") ∧
    normalizeTyPath "/opt/x.py" = "file://" ++ "/opt/x.py" ∧
    normalizeTyPath "file:///y" = "file:///y" :=
  ⟨by decide, by decide, by decide,
    (uri_rewrite_correct "a.py" "/opt/x.py").1,
    (uri_rewrite_correct "a.py" "/opt/x.py").2.1 (by decide) (by decide),
    (uri_rewrite_correct "a.py" "file:///y").2.2.1 (by decide)⟩

/-- C3: the pulled-diagnostics severity mapping (ty Error=2 to 1, Warning=1
to 2, Info=0 to 3) and the push-notification intake mapping (1 to error, 2
to warning, 3 to info) are mutually inverse total bijections over the three
defined levels, under the identification of app severity names with ty_wasm
Severity codes (and consistently with the engine-to-name
mapping of checkWithTy itself). -/
theorem severity_mapping_bijection :
    (∀ s : AppSeverity,
      lspSeverityToAppSeverity (tySeverityToLSPSeverity (appSeverityToTySeverity s)) = s) ∧
    (∀ p : Int, p = 1 ∨ p = 2 ∨ p = 3 →
      tySeverityToLSPSeverity (appSeverityToTySeverity (lspSeverityToAppSeverity p)) = p) ∧
    (∀ s : AppSeverity,
      tySeverityToAppSeverity (appSeverityToTySeverity s) = s) := by
  refine ⟨?_, ?_, ?_⟩
  · intro s
    cases s <;> decide
  · intro p hp
    rcases hp with rfl | rfl | rfl <;> decide
  · intro s
    cases s <;> decide

theorem severity_mapping_bijection_witness :
    ((2 : Int) = 1 ∨ (2 : Int) = 2 ∨ (2 : Int) = 3) ∧
    tySeverityToLSPSeverity (appSeverityToTySeverity (lspSeverityToAppSeverity 2)) = 2 :=
  ⟨Or.inr (Or.inl rfl), severity_mapping_bijection.2.1 2 (Or.inr (Or.inl rfl))⟩

/-- C8 counterexample: the pyrefly and basedpyright non-LSP checking stubs
return an empty diagnostics list, not a synthetic informational diagnostic,
contradicting the claim for those two checkers. -/
theorem stub_checkers_return_empty :
    checkWithPyrefly "x = 1" "3.12" = [] ∧
    checkWithBasedPyright "x = 1" "3.12" = [] :=
  ⟨rfl, rfl⟩

/-- C8 amended: among the non-LSP checking paths without a working
integration, only pyright returns a synthetic informational diagnostic;
the pyrefly and basedpyright placeholders return empty diagnostics lists. -/
theorem pyright_stub_synthetic_info (code pythonVersion : String) :
    checkWithPyright code pythonVersion ≠ [] ∧
    (checkWithPyright code pythonVersion).all
      (fun d => d.severity == AppSeverity.info) = true ∧
    checkWithPyrefly code pythonVersion = [] ∧
    checkWithBasedPyright code pythonVersion = [] := by
  refine ⟨?_, rfl, rfl, rfl⟩
  intro h
  simp [checkWithPyright] at h

/-- C4: a request whose method is not in the dispatch table is answered
with an error response carrying code -32601 and the id of the request, the
state is unchanged, and any subsequent request is handled exactly as it
would have been before. -/
theorem unknown_method_not_found (eng : Engine) (st : AdapterState) (req : LSPRequest)
    (h : req.method ∉ supportedMethods) :
    handleRequest eng st req =
      (st, [.errorResponse req.id (-32601) ("Method not found: " ++ req.method)]) ∧
    ∀ req2, handleRequest eng (handleRequest eng st req).1 req2 =
      handleRequest eng st req2 := by
  simp only [supportedMethods, List.mem_cons, List.not_mem_nil, or_false, not_or] at h
  obtain ⟨h1, h2, h3, h4, h5, h6, h7, h8, h9, h10, h11, h12, h13, h14, h15, h16, h17⟩ := h
  have hmain : handleRequest eng st req =
      (st, [.errorResponse req.id (-32601) ("Method not found: " ++ req.method)]) := by
    simp [handleRequest, tryHandle, h1, h2, h3, h4, h5, h6, h7, h8, h9, h10, h11, h12,
      h13, h14, h15, h16, h17]
  exact ⟨hmain, fun req2 => by rw [hmain]⟩

theorem unknown_method_not_found_witness :
    unknownRequest.method ∉ supportedMethods ∧
    handleRequest okEngine initialState unknownRequest =
      (initialState, [.errorResponse unknownRequest.id (-32601)
        ("Method not found: " ++ unknownRequest.method)]) :=
  ⟨by decide, (unknown_method_not_found okEngine initialState unknownRequest (by decide)).1⟩

/-- C6: every handler that needs workspace or document state answers with
its empty or null result, leaving the state unchanged and raising no
error, when the workspace is uninitialized or no file handle exists for
the document URI of the request. -/
theorem missing_state_empty_result (eng : Engine) (st : AdapterState) (req : LSPRequest)
    (hm : req.method ∈ stateRequiringMethods)
    (hstate : st.workspaceInited = false ∨ mapGet st.fileHandles req.params.uri = none) :
    handleRequest eng st req = (st, [.response req.id (emptyResultFor req.method)]) := by
  simp only [stateRequiringMethods, List.mem_cons, List.not_mem_nil, or_false] at hm
  rcases hstate with hw | hh
  · rcases hm with hm | hm | hm | hm | hm | hm | hm | hm | hm | hm <;>
      (cases hget : mapGet st.fileHandles req.params.uri <;>
        simp [handleRequest, tryHandle, emptyResultFor, hm, hget, hw])
  · rcases hm with hm | hm | hm | hm | hm | hm | hm | hm | hm | hm <;>
      simp [handleRequest, tryHandle, emptyResultFor, hm, hh]

theorem missing_state_empty_result_witness :
    hoverRequest.method ∈ stateRequiringMethods ∧
    (initialState.workspaceInited = false ∨
      mapGet initialState.fileHandles hoverRequest.params.uri = none) ∧
    handleRequest okEngine initialState hoverRequest =
      (initialState, [.response hoverRequest.id (emptyResultFor hoverRequest.method)]) :=
  ⟨by decide, Or.inl rfl,
    missing_state_empty_result okEngine initialState hoverRequest (by decide) (Or.inl rfl)⟩

/-- C7: when the engine raises during a request, the exception is caught by
the catch in handleRequest and answered with a -32603 internal-error response
whose message contains the stringified failure; handleRequest stays a total
function of the next state, so the exception never escapes and subsequent
requests are still handled. -/
theorem engine_error_internal_error (eng : Engine) (st st2 : AdapterState)
    (req : LSPRequest) (e : String)
    (herr : tryHandle eng st req = .error (st2, e)) :
    handleRequest eng st req =
      (st2, [.errorResponse req.id (-32603) ("Internal error: " ++ e)]) := by
  simp [handleRequest, herr]

theorem engine_error_internal_error_witness :
    tryHandle failingCheckEngine readyState diagnosticRequest =
      .error (readyState, "boom") ∧
    handleRequest failingCheckEngine readyState diagnosticRequest =
      (readyState, [.errorResponse diagnosticRequest.id (-32603)
        ("Internal error: " ++ "boom")]) :=
  ⟨rfl,
    engine_error_internal_error failingCheckEngine readyState readyState
      diagnosticRequest "boom" rfl⟩

/-- C10: a successful diagnostics pull reports every engine diagnostic
through tyDiagnosticToLSP, and any diagnostic whose engine range is absent
is reported with the concrete zero range (0,0)-(0,0) rather than an absent
range. -/
theorem diagnostic_zero_range_fallback (eng : Engine) (st : AdapterState)
    (req : LSPRequest) (handle : Nat) (diags : List TyDiagnostic)
    (hmethod : req.method = "textDocument/diagnostic")
    (hws : st.workspaceInited = true)
    (hh : mapGet st.fileHandles req.params.uri = some handle)
    (hcheck : eng.checkFile handle = .ok diags) :
    handleRequest eng st req =
      (st, [.response req.id (.diagnosticReport (diags.map tyDiagnosticToLSP))]) ∧
    ∀ d ∈ diags, d.toRange = none → (tyDiagnosticToLSP d).range =
      { start := { line := 0, character := 0 },
        stop := { line := 0, character := 0 } } := by
  constructor
  · simp [handleRequest, tryHandle, hmethod, hh, hws, hcheck]
  · intro d hd hnone
    simp [tyDiagnosticToLSP, hnone]

theorem diagnostic_zero_range_fallback_witness :
    diagnosticRequest.method = "textDocument/diagnostic" ∧
    readyState.workspaceInited = true ∧
    mapGet readyState.fileHandles diagnosticRequest.params.uri = some 0 ∧
    noRangeEngine.checkFile 0 = Except.ok [noRangeDiag] ∧
    (handleRequest noRangeEngine readyState diagnosticRequest =
      (readyState, [.response diagnosticRequest.id
        (.diagnosticReport ([noRangeDiag].map tyDiagnosticToLSP))]) ∧
     ∀ d ∈ [noRangeDiag], d.toRange = none → (tyDiagnosticToLSP d).range =
       { start := { line := 0, character := 0 },
         stop := { line := 0, character := 0 } }) :=
  ⟨rfl, rfl, by decide, rfl,
    diagnostic_zero_range_fallback noRangeEngine readyState diagnosticRequest 0
      [noRangeDiag] rfl rfl (by decide) rfl⟩

/-- C5: teardown idempotence of both transports.  On WebWorkerTransport and
BasedPyrightTransport alike, a close after the first is a complete no-op
(same state, no termination, no callback, nothing thrown — close is a
total function), the handler set is cleared by the first close, and every
send after a close throws.  The first close terminates the worker at most
once and fires the close callback at most once (the WebWorkerTransport close
never fires it; the BasedPyrightTransport close fires it exactly once). -/
theorem transport_close_idempotent (s : WWState) (t : BPTState)
    (hs : s.closed = false) (ht : t.closed = false) :
    (wwClose (wwClose s).1 = ((wwClose s).1, [])) ∧
    ((wwClose s).1.handlers = []) ∧
    (∀ m, wwSend (wwClose s).1 m = .error "Transport is closed") ∧
    ((wwClose s).2.count .terminateWorker ≤ 1) ∧
    ((wwClose s).2.count .invokeOnCloseCallback = 0) ∧
    (bptClose (bptClose t).1 = ((bptClose t).1, [])) ∧
    ((bptClose t).1.handlers = []) ∧
    (∀ m, bptSend (bptClose t).1 m = .error "Transport is closed") ∧
    ((bptClose t).2.count .invokeOnCloseCallback ≤ 1) := by
  refine ⟨?_, ?_, ?_, ?_, ?_, ?_, ?_, ?_, ?_⟩ <;>
    simp [wwClose, wwSend, bptClose, bptSend, hs, ht] <;>
    first
      | decide
      | (rcases t.foregroundWorker with _ | w <;>
          simp [List.count_append, List.count_cons, count_invoke_map_terminate])

theorem transport_close_idempotent_witness :
    liveWWState.closed = false ∧ liveBPTState.closed = false ∧
    wwClose (wwClose liveWWState).1 = ((wwClose liveWWState).1, []) ∧
    (wwClose liveWWState).1.handlers = [] ∧
    wwSend (wwClose liveWWState).1 "ping" = .error "Transport is closed" ∧
    ((wwClose liveWWState).2.count .terminateWorker ≤ 1) ∧
    ((wwClose liveWWState).2.count .invokeOnCloseCallback = 0) ∧
    bptClose (bptClose liveBPTState).1 = ((bptClose liveBPTState).1, []) ∧
    (bptClose liveBPTState).1.handlers = [] ∧
    bptSend (bptClose liveBPTState).1 "ping" = .error "Transport is closed" ∧
    ((bptClose liveBPTState).2.count .invokeOnCloseCallback ≤ 1) := by
  obtain ⟨c1, c2, c3, c4, c5, c6, c7, c8, c9⟩ :=
    transport_close_idempotent liveWWState liveBPTState rfl rfl
  exact ⟨rfl, rfl, c1, c2, c3 "ping", c4, c5, c6, c7, c8 "ping", c9⟩

/-- C9: boot fan-out.  Processing any message stream containing N spawn
requests constructs exactly N satellite workers and emits exactly N boot
posts: the k-th spawn request yields one boot post to the fresh satellite
worker nextWorkerId+k, carrying exactly the initialization payload
and channel endpoint of that request with the endpoint as the sole entry of the
postMessage transfer list (transferred, not copied); the booted worker ids
are pairwise distinct, coincide with the constructed satellites, and are
exactly the workers appended to the owned satellite list of the transport. -/
theorem boot_fanout (t : BPTState) (msgs : List BPTInMessage) :
    bootPosts (processMessages t msgs).2 =
      expectedBoots t.nextWorkerId (msgs.filterMap spawnData) ∧
    (bootPosts (processMessages t msgs).2).length =
      (msgs.filterMap spawnData).length ∧
    spawnedWorkers (processMessages t msgs).2 =
      (bootPosts (processMessages t msgs).2).map (fun b => b.1) ∧
    (processMessages t msgs).1.backgroundWorkers =
      t.backgroundWorkers ++ (bootPosts (processMessages t msgs).2).map (fun b => b.1) ∧
    ((bootPosts (processMessages t msgs).2).map (fun b => b.1)).Nodup := by
  have h1 := bootPosts_pm msgs t
  have h2 := spawnedWorkers_pm msgs t
  have h3 := backgroundWorkers_pm msgs t
  refine ⟨h1, ?_, ?_, ?_, ?_⟩
  · rw [h1, expectedBoots_length]
  · rw [h1, h2]
  · rw [h1, h3]
  · rw [h1]
    exact expectedBoots_fst_nodup _ _

theorem pyright_stub_synthetic_info_witness :
    checkWithPyright "x = 1" "3.12" ≠ [] ∧
    (checkWithPyright "x = 1" "3.12").all
      (fun d => d.severity == AppSeverity.info) = true ∧
    checkWithPyrefly "x = 1" "3.12" = [] ∧
    checkWithBasedPyright "x = 1" "3.12" = [] :=
  pyright_stub_synthetic_info "x = 1" "3.12"

end Playground
